import Mathlib

/-!
Verification of the contest administration module
(code_court/courthouse/views/admin/contests.py) against its
natural-language specification.

The source is translated into a shallow embedding: the persistent
database becomes an explicit `Store` value, each request handler becomes
a function from a parsed form and a store to an outcome paired with the
store that is persisted when the handler finishes, and unhandled Python
exceptions become an explicit `Outcome.exn` result.  Functions living
outside the provided source (the `util` and `model` modules) are either
modelled from the spec or abstracted as parameters, as noted on each
definition.
-/

/-- A user row; the spec says users are identified by a unique email. -/
structure User where
  email : String
deriving DecidableEq, Repr

/-- A problem row; the spec says problems are identified by a unique slug. -/
structure Problem where
  slug : String
deriving DecidableEq, Repr

/-- A contest row: id, name, visibility, the five nullable lifecycle
timestamps (modelled as optional integers), and the user/problem rosters
(many-to-many collections, modelled as lists of rows). -/
structure Contest where
  id : Nat
  name : String
  is_public : Bool
  activate_time : Option Int
  start_time : Option Int
  freeze_time : Option Int
  end_time : Option Int
  deactivate_time : Option Int
  users : List User
  problems : List Problem
deriving DecidableEq, Repr

/-- The persistent store visible to the handlers: all contest rows, the
user and problem tables, the set of contest ids referenced from
elsewhere in the database (which makes the storage layer raise
IntegrityError on deletion), and the id the next inserted row gets. -/
structure Store where
  contests : List Contest
  allUsers : List User
  allProblems : List Problem
  referenced : List Nat
  nextId : Nat
deriving DecidableEq, Repr

/-- Unhandled Python exceptions that can escape the handlers in the
source: AttributeError (attribute access on None) and sqlalchemy
NoResultFound (Query.one() with no matching row). -/
inductive PyExn where
  | attributeError
  | noResultFound
deriving DecidableEq, Repr

/-- The observable outcome of a handler call.  abort(400) rejections are
typed by the program point that raises them (the log messages at those
points distinguish them): missing/invalid input (the spec's
ValidationError) and duplicate-name rejection (DuplicateNameError).
A handled \"does not exist\" flash is notFoundError, a caught
IntegrityError flash is refIntegrityError, and an exception that escapes
the handler is exn. -/
inductive Outcome where
  | ok
  | validationError
  | duplicateNameError
  | notFoundError
  | refIntegrityError
  | exn (e : PyExn)
deriving DecidableEq, Repr

/-- The derived lifecycle phase of a contest (spec section 4.2). -/
inductive Phase where
  | inactive
  | activated
  | running
  | frozen
  | ended
  | deactivated
deriving DecidableEq, Repr

/-- Position of a phase in the order
Inactive, Activated, Running, Frozen, Ended, Deactivated. -/
def Phase.rank : Phase → Nat
  | .inactive => 0
  | .activated => 1
  | .running => 2
  | .frozen => 3
  | .ended => 4
  | .deactivated => 5

/-- A milestone timestamp qualifies at time `now` when it is set and at
or before `now`; a null timestamp is treated as never reached. -/
def milestoneReached (ts : Option Int) (now : Int) : Bool :=
  match ts with
  | some t => decide (t ≤ now)
  | none => false

/-- Modelled from the spec: the LifecycleCalculator has no source under
src (no phase function appears in the provided file); spec section 4.2
defines `phaseOf(contest, now)` as the highest-ordered milestone whose
timestamp is both set and at or before now, defaulting to Inactive when
none qualify. -/
def phaseOf (c : Contest) (now : Int) : Phase :=
  if milestoneReached c.deactivate_time now then .deactivated
  else if milestoneReached c.end_time now then .ended
  else if milestoneReached c.freeze_time now then .frozen
  else if milestoneReached c.start_time now then .running
  else if milestoneReached c.activate_time now then .activated
  else .inactive

lemma milestoneReached_mono {ts : Option Int} {t1 t2 : Int} (h : t1 ≤ t2)
    (h1 : milestoneReached ts t1 = true) : milestoneReached ts t2 = true := by
  cases ts with
  | none => simp [milestoneReached] at h1
  | some t =>
    simp only [milestoneReached, decide_eq_true_eq] at h1 ⊢
    omega

lemma phaseOf_eq_deact {c : Contest} {t : Int} (hp : phaseOf c t = .deactivated) :
    milestoneReached c.deactivate_time t = true := by
  unfold phaseOf at hp
  split_ifs at hp <;> simp_all

lemma phaseOf_eq_ended {c : Contest} {t : Int} (hp : phaseOf c t = .ended) :
    milestoneReached c.end_time t = true := by
  unfold phaseOf at hp
  split_ifs at hp <;> simp_all

lemma phaseOf_eq_frozen {c : Contest} {t : Int} (hp : phaseOf c t = .frozen) :
    milestoneReached c.freeze_time t = true := by
  unfold phaseOf at hp
  split_ifs at hp <;> simp_all

lemma phaseOf_eq_running {c : Contest} {t : Int} (hp : phaseOf c t = .running) :
    milestoneReached c.start_time t = true := by
  unfold phaseOf at hp
  split_ifs at hp <;> simp_all

lemma phaseOf_eq_activated {c : Contest} {t : Int} (hp : phaseOf c t = .activated) :
    milestoneReached c.activate_time t = true := by
  unfold phaseOf at hp
  split_ifs at hp <;> simp_all

lemma phaseOf_rank_ge_ended {c : Contest} {t : Int}
    (h : milestoneReached c.end_time t = true) : 4 ≤ (phaseOf c t).rank := by
  unfold phaseOf
  split_ifs <;> simp_all [Phase.rank]

lemma phaseOf_rank_ge_frozen {c : Contest} {t : Int}
    (h : milestoneReached c.freeze_time t = true) : 3 ≤ (phaseOf c t).rank := by
  unfold phaseOf
  split_ifs <;> simp_all [Phase.rank]

lemma phaseOf_rank_ge_running {c : Contest} {t : Int}
    (h : milestoneReached c.start_time t = true) : 2 ≤ (phaseOf c t).rank := by
  unfold phaseOf
  split_ifs <;> simp_all [Phase.rank]

lemma phaseOf_rank_ge_activated {c : Contest} {t : Int}
    (h : milestoneReached c.activate_time t = true) : 1 ≤ (phaseOf c t).rank := by
  unfold phaseOf
  split_ifs <;> simp_all [Phase.rank]

/-- Claim C9: the derived phase function is monotonic in the supplied
time: for a fixed contest and times t1 ≤ t2, the phase at t1 is at or
below the phase at t2 in the order
Inactive, Activated, Running, Frozen, Ended, Deactivated. -/
theorem phaseOf_monotone (c : Contest) (t1 t2 : Int) (h : t1 ≤ t2) :
    (phaseOf c t1).rank ≤ (phaseOf c t2).rank := by
  cases hp : phaseOf c t1 with
  | inactive => exact Nat.zero_le _
  | activated =>
      simpa [Phase.rank] using
        phaseOf_rank_ge_activated (milestoneReached_mono h (phaseOf_eq_activated hp))
  | running =>
      simpa [Phase.rank] using
        phaseOf_rank_ge_running (milestoneReached_mono h (phaseOf_eq_running hp))
  | frozen =>
      simpa [Phase.rank] using
        phaseOf_rank_ge_frozen (milestoneReached_mono h (phaseOf_eq_frozen hp))
  | ended =>
      simpa [Phase.rank] using
        phaseOf_rank_ge_ended (milestoneReached_mono h (phaseOf_eq_ended hp))
  | deactivated =>
      have h5 := milestoneReached_mono h (phaseOf_eq_deact hp)
      have h2 : phaseOf c t2 = .deactivated := by
        unfold phaseOf
        rw [if_pos h5]
      simp [h2, Phase.rank]

/-- Claim C9 witness: the monotonicity theorem evaluated at a concrete
contest and a concrete pair of times. -/
theorem phaseOf_monotone_witness :
    (0 : Int) ≤ 10 ∧
      (phaseOf ⟨1, "c", true, some 0, some 2, some 4, some 6, some 8, [], []⟩ 0).rank ≤
        (phaseOf ⟨1, "c", true, some 0, some 2, some 4, some 6, some 8, [], []⟩ 10).rank :=
  ⟨by decide, phaseOf_monotone ⟨1, "c", true, some 0, some 2, some 4, some 6, some 8, [], []⟩ 0 10 (by decide)⟩

/-- Translation of users_from_emails (contests.py lines 96-103): walk the
email list in order, look each email up with
User.query.filter_by(email=email).scalar(), and append the row when one
is found; emails with no matching user are skipped. -/
def users_from_emails (emails : List String) (model : Store) : List User :=
  match emails with
  | [] => []
  | email :: rest =>
    match model.allUsers.find? (fun u => u.email = email) with
    | some db_user => db_user :: users_from_emails rest model
    | none => users_from_emails rest model

/-- Translation of problems_from_slugs (contests.py lines 106-114):
identical shape over the problem table keyed by slug. -/
def problems_from_slugs (problem_slugs : List String) (model : Store) : List Problem :=
  match problem_slugs with
  | [] => []
  | slug :: rest =>
    match model.allProblems.find? (fun p => p.slug = slug) with
    | some db_problem => db_problem :: problems_from_slugs rest model
    | none => problems_from_slugs rest model

lemma mem_users_from_emails {model : Store}
    (hn : (model.allUsers.map User.email).Nodup) (emails : List String) (u : User) :
    u ∈ users_from_emails emails model ↔ u ∈ model.allUsers ∧ u.email ∈ emails := by
  induction emails with
  | nil => simp [users_from_emails]
  | cons e rest ih =>
    unfold users_from_emails
    cases hf : model.allUsers.find? (fun x => x.email = e) with
    | none =>
      rw [List.find?_eq_none] at hf
      simp only [ih, List.mem_cons]
      constructor
      · rintro ⟨hm, he⟩
        exact ⟨hm, Or.inr he⟩
      · rintro ⟨hm, he | he⟩
        · exact absurd (by simp [he]) (hf u hm)
        · exact ⟨hm, he⟩
    | some w =>
      have hwmem : w ∈ model.allUsers := List.mem_of_find?_eq_some hf
      have hweq : w.email = e := by
        have := List.find?_some hf
        simpa using this
      simp only [List.mem_cons, ih]
      constructor
      · rintro (rfl | ⟨hm, he⟩)
        · exact ⟨hwmem, Or.inl hweq⟩
        · exact ⟨hm, Or.inr he⟩
      · rintro ⟨hm, he | he⟩
        · exact Or.inl (List.inj_on_of_nodup_map hn hm hwmem (he.trans hweq.symm))
        · exact Or.inr ⟨hm, he⟩

lemma mem_problems_from_slugs {model : Store}
    (hn : (model.allProblems.map Problem.slug).Nodup) (slugs : List String) (p : Problem) :
    p ∈ problems_from_slugs slugs model ↔ p ∈ model.allProblems ∧ p.slug ∈ slugs := by
  induction slugs with
  | nil => simp [problems_from_slugs]
  | cons s rest ih =>
    unfold problems_from_slugs
    cases hf : model.allProblems.find? (fun x => x.slug = s) with
    | none =>
      rw [List.find?_eq_none] at hf
      simp only [ih, List.mem_cons]
      constructor
      · rintro ⟨hm, hs⟩
        exact ⟨hm, Or.inr hs⟩
      · rintro ⟨hm, hs | hs⟩
        · exact absurd (by simp [hs]) (hf p hm)
        · exact ⟨hm, hs⟩
    | some w =>
      have hwmem : w ∈ model.allProblems := List.mem_of_find?_eq_some hf
      have hweq : w.slug = s := by
        have := List.find?_some hf
        simpa using this
      simp only [List.mem_cons, ih]
      constructor
      · rintro (rfl | ⟨hm, hs⟩)
        · exact ⟨hwmem, Or.inl hweq⟩
        · exact ⟨hm, Or.inr hs⟩
      · rintro ⟨hm, hs | hs⟩
        · exact Or.inl (List.inj_on_of_nodup_map hn hm hwmem (hs.trans hweq.symm))
        · exact Or.inr ⟨hm, hs⟩

/-- Claim C3: roster resolution looks each identifier up independently,
silently drops identifiers with no matching entity, returns an empty
result for an empty input, and has set semantics: an element is in the
result exactly when it is a stored entity whose identifier occurs in the
input, so input order is irrelevant and duplicate identifiers collapse
(two inputs with the same members yield the same result set).  Stated
under the data-model invariant that stored emails and slugs are unique. -/
theorem roster_resolution_set_semantics (model : Store)
    (hu : (model.allUsers.map User.email).Nodup)
    (hp : (model.allProblems.map Problem.slug).Nodup) :
    users_from_emails [] model = [] ∧
    problems_from_slugs [] model = [] ∧
    (∀ emails u, u ∈ users_from_emails emails model ↔
        u ∈ model.allUsers ∧ u.email ∈ emails) ∧
    (∀ slugs p, p ∈ problems_from_slugs slugs model ↔
        p ∈ model.allProblems ∧ p.slug ∈ slugs) ∧
    (∀ l1 l2 : List String, (∀ e, e ∈ l1 ↔ e ∈ l2) →
        (users_from_emails l1 model).toFinset = (users_from_emails l2 model).toFinset) ∧
    (∀ l1 l2 : List String, (∀ s, s ∈ l1 ↔ s ∈ l2) →
        (problems_from_slugs l1 model).toFinset = (problems_from_slugs l2 model).toFinset) := by
  refine ⟨rfl, rfl, mem_users_from_emails hu, mem_problems_from_slugs hp, ?_, ?_⟩
  · intro l1 l2 hmemiff
    ext u
    simp [List.mem_toFinset, mem_users_from_emails hu, hmemiff]
  · intro l1 l2 hmemiff
    ext p
    simp [List.mem_toFinset, mem_problems_from_slugs hp, hmemiff]

/-- A concrete store used by witnesses: one user, one problem, no
contests. -/
def storeW : Store :=
  { contests := []
    allUsers := [⟨"a@x.com"⟩]
    allProblems := [⟨"p1"⟩]
    referenced := []
    nextId := 1 }

/-- Claim C3 witness: the roster-resolution theorem instantiated at a
concrete store, including the scenario from the spec where only
a@x.com exists and missing@x.com is dropped. -/
theorem roster_resolution_set_semantics_witness :
    (storeW.allUsers.map User.email).Nodup ∧
    (storeW.allProblems.map Problem.slug).Nodup ∧
    (users_from_emails [] storeW = [] ∧
     problems_from_slugs [] storeW = [] ∧
     (∀ emails u, u ∈ users_from_emails emails storeW ↔
         u ∈ storeW.allUsers ∧ u.email ∈ emails) ∧
     (∀ slugs p, p ∈ problems_from_slugs slugs storeW ↔
         p ∈ storeW.allProblems ∧ p.slug ∈ slugs) ∧
     (∀ l1 l2 : List String, (∀ e, e ∈ l1 ↔ e ∈ l2) →
         (users_from_emails l1 storeW).toFinset = (users_from_emails l2 storeW).toFinset) ∧
     (∀ l1 l2 : List String, (∀ s, s ∈ l1 ↔ s ∈ l2) →
         (problems_from_slugs l1 storeW).toFinset = (problems_from_slugs l2 storeW).toFinset)) ∧
    users_from_emails ["a@x.com", "missing@x.com"] storeW = [⟨"a@x.com"⟩] :=
  ⟨by decide, by decide,
   roster_resolution_set_semantics storeW (by decide) (by decide), by decide⟩

/-- Modelled from the spec: util.checkbox_result_to_bool (the util
module is not under src).  The spec only says Create fails when
isPublic is not a recognized boolean encoding, so the recognized
checkbox encodings are mapped to booleans (checked is "on", an absent or
"off" checkbox is false) and every other string is unrecognized. -/
def checkbox_result_to_bool : Option String → Option Bool
  | some "on" => some true
  | some "off" => some false
  | none => some false
  | some _ => none

/-- Helper for pySplit: scan the characters, collecting the current
word in acc (reversed); whitespace ends a word, and empty pieces are
never emitted. -/
def pySplitAux : List Char → List Char → List String
  | [], acc => if acc = [] then [] else [String.mk acc.reverse]
  | c :: cs, acc =>
    if c.isWhitespace then
      if acc = [] then pySplitAux cs []
      else String.mk acc.reverse :: pySplitAux cs []
    else pySplitAux cs (c :: acc)

/-- Python str.split() with no arguments: split on runs of whitespace
and drop empty pieces, so the empty string yields an empty list. -/
def pySplit (s : String) : List String :=
  pySplitAux s.data []

/-- The parsed POST form as add_contest reads it (contests.py lines
130-143 and 158): every request.form.get call yields an optional string.
The date/time field pairs are kept as the optional strings the form
carries; contest_id is modelled as an optional id, none standing for an
absent or empty (falsy) field.  The many date/time fields are grouped in
the order the source reads them. -/
structure ContestForm where
  name : Option String
  activate_date : Option String
  activate_time : Option String
  start_date : Option String
  start_time : Option String
  freeze_date : Option String
  freeze_time : Option String
  end_date : Option String
  end_time : Option String
  deactivate_date : Option String
  deactivate_time : Option String
  is_public : Option String
  users : Option String
  problems : Option String
  contest_id : Option Nat
deriving DecidableEq, Repr

/-- Translation of is_dup_contest_name (contests.py lines 227-242):
query the contest table by name and report whether a row came back. -/
def is_dup_contest_name (name : String) (store : Store) : Bool :=
  (store.contests.find? (fun c => c.name = name)).isSome

/-- Translation of add_contest (contests.py lines 117-192),
parameterized by sdt, the external model.strs_to_dt conversion (the
model module is not under src; no claim depends on its internals).
Control flow follows the source: reject a missing name with abort(400),
reject an unrecognized is_public with abort(400), then branch on
contest_id.  On the edit branch, Query.one() raises NoResultFound when
the id matches no row; users.split() and problems.split() raise
AttributeError when the field is absent (None); mutations reach the
store only at the final commit, so any raise leaves the store
unchanged.  On the add branch, a duplicate name is rejected with
abort(400) before the row is built, and the same AttributeError applies
to absent roster fields. -/
def add_contest (sdt : Option String → Option String → Option Int)
    (form : ContestForm) (store : Store) : Outcome × Store :=
  match form.name with
  | none => (.validationError, store)
  | some name =>
    match checkbox_result_to_bool form.is_public with
    | none => (.validationError, store)
    | some is_public_bool =>
      match form.contest_id with
      | some cid =>
        match store.contests.find? (fun c => c.id = cid) with
        | none => (.exn .noResultFound, store)
        | some contest =>
          match form.users with
          | none => (.exn .attributeError, store)
          | some user_emails =>
            match form.problems with
            | none => (.exn .attributeError, store)
            | some problem_slugs =>
              let contest2 : Contest :=
                { contest with
                  name := name
                  is_public := is_public_bool
                  activate_time := sdt form.activate_date form.activate_time
                  start_time := sdt form.start_date form.start_time
                  freeze_time := sdt form.freeze_date form.freeze_time
                  end_time := sdt form.end_date form.end_time
                  deactivate_time := sdt form.deactivate_date form.deactivate_time
                  users := users_from_emails (pySplit user_emails) store
                  problems := problems_from_slugs (pySplit problem_slugs) store }
              (.ok, { store with
                        contests := store.contests.map
                          (fun c => if c.id = cid then contest2 else c) })
      | none =>
        if is_dup_contest_name name store then
          (.duplicateNameError, store)
        else
          match form.users with
          | none => (.exn .attributeError, store)
          | some user_emails =>
            match form.problems with
            | none => (.exn .attributeError, store)
            | some problem_slugs =>
              let contest : Contest :=
                { id := store.nextId
                  name := name
                  is_public := is_public_bool
                  activate_time := sdt form.activate_date form.activate_time
                  start_time := sdt form.start_date form.start_time
                  freeze_time := sdt form.freeze_date form.freeze_time
                  end_time := sdt form.end_date form.end_time
                  deactivate_time := sdt form.deactivate_date form.deactivate_time
                  users := users_from_emails (pySplit user_emails) store
                  problems := problems_from_slugs (pySplit problem_slugs) store }
              (.ok, { store with
                        contests := store.contests ++ [contest]
                        nextId := store.nextId + 1 })

/-- Translation of contests_del (contests.py lines 64-93).  When the id
matches no contest the code enters its missing-contest branch but its
very first statement reads contest.name with contest = None, so the
handler raises AttributeError instead of flashing the not-found
message.  When the contest exists and is referenced elsewhere, the
commit raises IntegrityError, which is caught and rolled back (store
unchanged, danger flash); otherwise the row is deleted. -/
def contests_del (contest_id : Nat) (store : Store) : Outcome × Store :=
  match store.contests.find? (fun c => c.id = contest_id) with
  | none => (.exn .attributeError, store)
  | some contest =>
    if contest.id ∈ store.referenced then
      (.refIntegrityError, store)
    else
      (.ok, { store with
                contests := store.contests.filter (fun c => c.id ≠ contest_id) })

/-- A strs_to_dt instance used by the closed counterexamples and
witnesses (the claims settled here never depend on its output). -/
def sdtNone : Option String → Option String → Option Int := fun _ _ => none

/-- The store with no rows at all. -/
def emptyStore : Store :=
  { contests := [], allUsers := [], allProblems := [], referenced := [], nextId := 1 }

/-- A baseline well-formed form: name New, public checkbox on, empty
roster fields, no contest_id (create mode). -/
def baseForm : ContestForm :=
  { name := some "New"
    activate_date := none
    activate_time := none
    start_date := none
    start_time := none
    freeze_date := none
    freeze_time := none
    end_date := none
    end_time := none
    deactivate_date := none
    deactivate_time := none
    is_public := some "on"
    users := some ""
    problems := some ""
    contest_id := none }

/-- A concrete contest row used by the fixtures. -/
def contestA : Contest :=
  { id := 1
    name := "Spring"
    is_public := true
    activate_time := none
    start_time := none
    freeze_time := none
    end_time := none
    deactivate_time := none
    users := []
    problems := [] }

/-- A store holding contestA, unreferenced. -/
def storeA : Store :=
  { contests := [contestA], allUsers := [], allProblems := [], referenced := [], nextId := 2 }

/-- A store holding contestA with its id referenced elsewhere in the
database. -/
def storeARef : Store :=
  { contests := [contestA], allUsers := [], allProblems := [], referenced := [1], nextId := 2 }

/-- Claim C1 (code evaluated at the failing input): a Delete call whose
contest id matches no contest does not report the not-found outcome; the
handler raises AttributeError, because the missing-contest branch starts
by reading contest.name from the None it just tested for. -/
theorem contests_del_missing_id_crashes :
    contests_del 999 emptyStore = (.exn .attributeError, emptyStore) ∧
    (contests_del 999 emptyStore).1 ≠ .notFoundError := by
  constructor
  · rfl
  · decide

/-- Claim C2: a Create call (no contest_id) with a present name, a
recognized is_public, and a name some existing contest already holds is
rejected with the duplicate-name abort and the store is returned
unchanged; moreover on every Create path that does not end in the ok
outcome the store is unchanged, so no row is ever added on an error
path. -/
theorem create_duplicate_name_rejected (sdt : Option String → Option String → Option Int)
    (form : ContestForm) (store : Store) (hc : form.contest_id = none) :
    (∀ name b, form.name = some name →
        checkbox_result_to_bool form.is_public = some b →
        is_dup_contest_name name store = true →
        add_contest sdt form store = (.duplicateNameError, store)) ∧
    ((add_contest sdt form store).1 ≠ .ok → (add_contest sdt form store).2 = store) := by
  constructor
  · intro name b hn hb hd
    simp [add_contest, hn, hb, hc, hd]
  · intro hne
    cases hn : form.name with
    | none => simp [add_contest, hn]
    | some name =>
      cases hb : checkbox_result_to_bool form.is_public with
      | none => simp [add_contest, hn, hb]
      | some b =>
        cases hd : is_dup_contest_name name store with
        | true => simp [add_contest, hn, hb, hc, hd]
        | false =>
          cases hu : form.users with
          | none => simp [add_contest, hn, hb, hc, hd, hu]
          | some us =>
            cases hp : form.problems with
            | none => simp [add_contest, hn, hb, hc, hd, hu, hp]
            | some ps =>
              exfalso
              exact hne (by simp [add_contest, hn, hb, hc, hd, hu, hp])

/-- Claim C2 witness: the duplicate-name rejection evaluated on a store
already holding a contest named Spring and a form resubmitting that
name. -/
theorem create_duplicate_name_rejected_witness :
    ({ baseForm with name := some "Spring" } : ContestForm).contest_id = none ∧
    ((∀ name b, ({ baseForm with name := some "Spring" } : ContestForm).name = some name →
        checkbox_result_to_bool ({ baseForm with name := some "Spring" } : ContestForm).is_public = some b →
        is_dup_contest_name name storeA = true →
        add_contest sdtNone { baseForm with name := some "Spring" } storeA =
          (.duplicateNameError, storeA)) ∧
     ((add_contest sdtNone { baseForm with name := some "Spring" } storeA).1 ≠ .ok →
        (add_contest sdtNone { baseForm with name := some "Spring" } storeA).2 = storeA)) :=
  ⟨rfl, create_duplicate_name_rejected sdtNone { baseForm with name := some "Spring" } storeA rfl⟩

/-- Claim C4 counterexample: an Update (contest_id present) naming an id
that matches no contest does not produce the typed not-found outcome;
the handler raises sqlalchemy NoResultFound out of Query.one(). -/
theorem update_missing_id_not_typed :
    (add_contest sdtNone { baseForm with contest_id := some 999 } emptyStore).1 =
      .exn .noResultFound ∧
    (add_contest sdtNone { baseForm with contest_id := some 999 } emptyStore).1 ≠
      .notFoundError := by
  constructor
  · rfl
  · decide

/-- Claim C4 as amended: an Update whose contest id matches no stored
contest fails by raising the storage layer NoResultFound exception
unhandled, not with a typed not-found result, and the store is left
completely unchanged. -/
theorem update_missing_id_raises (sdt : Option String → Option String → Option Int)
    (form : ContestForm) (store : Store) (cid : Nat) (name : String) (b : Bool)
    (hc : form.contest_id = some cid)
    (hn : form.name = some name)
    (hb : checkbox_result_to_bool form.is_public = some b)
    (hmiss : ∀ c ∈ store.contests, c.id ≠ cid) :
    add_contest sdt form store = (.exn .noResultFound, store) := by
  have hf : store.contests.find? (fun c => c.id = cid) = none := by
    rw [List.find?_eq_none]
    intro c hcm
    simpa using hmiss c hcm
  simp [add_contest, hn, hb, hc, hf]

/-- Claim C4 amended witness: the amended theorem evaluated at the
concrete failing input from the counterexample. -/
theorem update_missing_id_raises_witness :
    ({ baseForm with contest_id := some 999 } : ContestForm).contest_id = some 999 ∧
    ({ baseForm with contest_id := some 999 } : ContestForm).name = some "New" ∧
    checkbox_result_to_bool ({ baseForm with contest_id := some 999 } : ContestForm).is_public =
      some true ∧
    (∀ c ∈ emptyStore.contests, c.id ≠ 999) ∧
    add_contest sdtNone { baseForm with contest_id := some 999 } emptyStore =
      (.exn .noResultFound, emptyStore) :=
  ⟨rfl, rfl, rfl, by decide,
   update_missing_id_raises sdtNone { baseForm with contest_id := some 999 } emptyStore
     999 "New" true rfl rfl rfl (by decide)⟩

/-- Claim C5 counterexample: a Create whose submitted name is the empty
string is not rejected; on an empty store the call succeeds outright, so
the absent-or-empty part of the claim fails (only an absent name is
rejected). -/
theorem create_empty_name_not_rejected :
    (add_contest sdtNone { baseForm with name := some "" } emptyStore).1 = .ok ∧
    (add_contest sdtNone { baseForm with name := some "" } emptyStore).1 ≠
      .validationError := by
  constructor
  · rfl
  · decide

/-- Claim C5 as amended: on the Create path the validation rejection
happens exactly when the submitted name is absent (None) or the
submitted is_public value is not a recognized boolean encoding; a
present-but-empty name is accepted. -/
theorem create_validation_iff (sdt : Option String → Option String → Option Int)
    (form : ContestForm) (store : Store) (hc : form.contest_id = none) :
    (add_contest sdt form store).1 = .validationError ↔
      (form.name = none ∨ checkbox_result_to_bool form.is_public = none) := by
  cases hn : form.name with
  | none => simp [add_contest, hn]
  | some name =>
    cases hb : checkbox_result_to_bool form.is_public with
    | none => simp [add_contest, hn, hb]
    | some b =>
      cases hd : is_dup_contest_name name store with
      | true => simp [add_contest, hn, hb, hc, hd]
      | false =>
        cases hu : form.users with
        | none => simp [add_contest, hn, hb, hc, hd, hu]
        | some us =>
          cases hp : form.problems with
          | none => simp [add_contest, hn, hb, hc, hd, hu, hp]
          | some ps => simp [add_contest, hn, hb, hc, hd, hu, hp]

/-- Claim C5 amended witness: the validation equivalence evaluated on a
concrete nameless form, where both sides hold. -/
theorem create_validation_iff_witness :
    ({ baseForm with name := none } : ContestForm).contest_id = none ∧
    ((add_contest sdtNone { baseForm with name := none } emptyStore).1 = .validationError ↔
      (({ baseForm with name := none } : ContestForm).name = none ∨
        checkbox_result_to_bool ({ baseForm with name := none } : ContestForm).is_public = none)) :=
  ⟨rfl, create_validation_iff sdtNone { baseForm with name := none } emptyStore rfl⟩

/-- Claim C6: for a stored contest (ids unique, per the data model),
Delete on it when its id is referenced elsewhere ends in the caught
IntegrityError outcome with the store (the contest and all its data)
completely unchanged, while Delete on it when unreferenced succeeds and
a subsequent lookup of the id finds nothing. -/
theorem delete_referenced_and_unreferenced (store : Store) (contest : Contest)
    (hmem : contest ∈ store.contests)
    (hids : (store.contests.map Contest.id).Nodup) :
    (contest.id ∈ store.referenced →
        contests_del contest.id store = (.refIntegrityError, store)) ∧
    (contest.id ∉ store.referenced →
        (contests_del contest.id store).1 = .ok ∧
        (contests_del contest.id store).2.contests.find?
            (fun c => c.id = contest.id) = none) := by
  have hsome : (store.contests.find? (fun c => c.id = contest.id)).isSome := by
    rw [List.find?_isSome]
    exact ⟨contest, hmem, by simp⟩
  obtain ⟨c0, hf0⟩ := Option.isSome_iff_exists.mp hsome
  have hc0mem : c0 ∈ store.contests := List.mem_of_find?_eq_some hf0
  have hc0id : c0.id = contest.id := by simpa using List.find?_some hf0
  have hc0 : c0 = contest := List.inj_on_of_nodup_map hids hc0mem hmem hc0id
  subst hc0
  constructor
  · intro href
    simp [contests_del, hf0, href]
  · intro href
    refine ⟨by simp [contests_del, hf0, href], ?_⟩
    have h2 : (contests_del c0.id store).2.contests =
        store.contests.filter (fun c => c.id ≠ c0.id) := by
      simp [contests_del, hf0, href]
    rw [h2, List.find?_eq_none]
    intro c hcm
    rw [List.mem_filter] at hcm
    simpa using hcm.2

/-- Claim C6 witness: the delete theorem applied both to a store where
contest 1 is referenced elsewhere and to one where it is not. -/
theorem delete_referenced_and_unreferenced_witness :
    (contestA ∈ storeARef.contests ∧ (storeARef.contests.map Contest.id).Nodup ∧
      ((contestA.id ∈ storeARef.referenced →
          contests_del contestA.id storeARef = (.refIntegrityError, storeARef)) ∧
       (contestA.id ∉ storeARef.referenced →
          (contests_del contestA.id storeARef).1 = .ok ∧
          (contests_del contestA.id storeARef).2.contests.find?
              (fun c => c.id = contestA.id) = none))) ∧
    (contestA ∈ storeA.contests ∧ (storeA.contests.map Contest.id).Nodup ∧
      ((contestA.id ∈ storeA.referenced →
          contests_del contestA.id storeA = (.refIntegrityError, storeA)) ∧
       (contestA.id ∉ storeA.referenced →
          (contests_del contestA.id storeA).1 = .ok ∧
          (contests_del contestA.id storeA).2.contests.find?
              (fun c => c.id = contestA.id) = none))) :=
  ⟨⟨by decide, by decide,
    delete_referenced_and_unreferenced storeARef contestA (by decide) (by decide)⟩,
   ⟨by decide, by decide,
    delete_referenced_and_unreferenced storeA contestA (by decide) (by decide)⟩⟩

/-- The row the edit branch of add_contest writes back: every scalar
field and both rosters replaced by form-derived values, only the id kept
from the prior row. -/
def updatedRow (sdt : Option String → Option String → Option Int)
    (form : ContestForm) (store : Store) (contest : Contest)
    (name : String) (b : Bool) (us ps : String) : Contest :=
  { contest with
    name := name
    is_public := b
    activate_time := sdt form.activate_date form.activate_time
    start_time := sdt form.start_date form.start_time
    freeze_time := sdt form.freeze_date form.freeze_time
    end_time := sdt form.end_date form.end_time
    deactivate_time := sdt form.deactivate_date form.deactivate_time
    users := users_from_emails (pySplit us) store
    problems := problems_from_slugs (pySplit ps) store }

lemma add_contest_edit_eq (sdt : Option String → Option String → Option Int)
    (form : ContestForm) (store : Store) (cid : Nat) (name : String) (b : Bool)
    (us ps : String) (contest : Contest)
    (hc : form.contest_id = some cid)
    (hn : form.name = some name)
    (hb : checkbox_result_to_bool form.is_public = some b)
    (hu : form.users = some us)
    (hp : form.problems = some ps)
    (hf : store.contests.find? (fun c => c.id = cid) = some contest) :
    add_contest sdt form store =
      (.ok, { store with
                contests := store.contests.map
                  (fun c =>
                    if c.id = cid then updatedRow sdt form store contest name b us ps
                    else c) }) := by
  simp [add_contest, updatedRow, hn, hb, hc, hf, hu, hp]

/-- Claim C7: the edit branch never re-validates name uniqueness: with
all fields present and the id stored, the Update succeeds and writes the
submitted name even though another contest already holds that exact name
(hypothesis is_dup_contest_name), and no edit-mode call whatsoever can
end in the duplicate-name outcome. -/
theorem update_skips_uniqueness_check (sdt : Option String → Option String → Option Int)
    (form : ContestForm) (store : Store) (cid : Nat) (name : String) (b : Bool)
    (us ps : String) (contest : Contest)
    (hc : form.contest_id = some cid)
    (hn : form.name = some name)
    (hb : checkbox_result_to_bool form.is_public = some b)
    (hu : form.users = some us)
    (hp : form.problems = some ps)
    (hf : store.contests.find? (fun c => c.id = cid) = some contest)
    (hdup : is_dup_contest_name name store = true) :
    (add_contest sdt form store).1 = .ok ∧
    (∃ c, c ∈ (add_contest sdt form store).2.contests ∧
        c.id = contest.id ∧ c.name = name) ∧
    (∀ form2 cid2, form2.contest_id = some cid2 →
        (add_contest sdt form2 store).1 ≠ .duplicateNameError) := by
  have hcid : contest.id = cid := by simpa using List.find?_some hf
  have hmem0 : contest ∈ store.contests := List.mem_of_find?_eq_some hf
  have hred := add_contest_edit_eq sdt form store cid name b us ps contest hc hn hb hu hp hf
  have hfeq : (fun c =>
      if c.id = cid then updatedRow sdt form store contest name b us ps else c) contest =
      updatedRow sdt form store contest name b us ps := if_pos hcid
  refine ⟨by rw [hred], ?_, ?_⟩
  · rw [hred]
    exact ⟨updatedRow sdt form store contest name b us ps,
      List.mem_map.mpr ⟨contest, hmem0, hfeq⟩, rfl, rfl⟩
  · intro form2 cid2 hc2
    cases hn2 : form2.name with
    | none => simp [add_contest, hn2]
    | some name2 =>
      cases hb2 : checkbox_result_to_bool form2.is_public with
      | none => simp [add_contest, hn2, hb2]
      | some b2 =>
        cases hf2 : store.contests.find? (fun c => c.id = cid2) with
        | none => simp [add_contest, hn2, hb2, hc2, hf2]
        | some c2 =>
          cases hu2 : form2.users with
          | none => simp [add_contest, hn2, hb2, hc2, hf2, hu2]
          | some us2 =>
            cases hp2 : form2.problems with
            | none => simp [add_contest, hn2, hb2, hc2, hf2, hu2, hp2]
            | some ps2 => simp [add_contest, hn2, hb2, hc2, hf2, hu2, hp2]

/-- A second contest row so a name collision exists. -/
def contestB : Contest :=
  { id := 2
    name := "Autumn"
    is_public := false
    activate_time := none
    start_time := none
    freeze_time := none
    end_time := none
    deactivate_time := none
    users := []
    problems := [] }

/-- A store holding both contests. -/
def storeAB : Store :=
  { contests := [contestA, contestB], allUsers := [], allProblems := [], referenced := [],
    nextId := 3 }

/-- An edit form renaming contest 1 to Autumn, the name contest 2
already holds. -/
def formC7 : ContestForm :=
  { baseForm with name := some "Autumn", contest_id := some 1 }

/-- Claim C7 witness: the no-uniqueness-recheck theorem at a concrete
store where the edit collides with another contest name. -/
theorem update_skips_uniqueness_check_witness :
    formC7.contest_id = some 1 ∧
    formC7.name = some "Autumn" ∧
    checkbox_result_to_bool formC7.is_public = some true ∧
    formC7.users = some "" ∧
    formC7.problems = some "" ∧
    storeAB.contests.find? (fun c => c.id = 1) = some contestA ∧
    is_dup_contest_name "Autumn" storeAB = true ∧
    ((add_contest sdtNone formC7 storeAB).1 = .ok ∧
     (∃ c, c ∈ (add_contest sdtNone formC7 storeAB).2.contests ∧
         c.id = contestA.id ∧ c.name = "Autumn") ∧
     (∀ form2 cid2, form2.contest_id = some cid2 →
         (add_contest sdtNone form2 storeAB).1 ≠ .duplicateNameError)) :=
  ⟨rfl, rfl, rfl, rfl, rfl, by decide, by decide,
   update_skips_uniqueness_check sdtNone formC7 storeAB 1 "Autumn" true "" "" contestA
     rfl rfl rfl rfl rfl (by decide) (by decide)⟩

/-- Claim C8: a successful Update replaces every field wholesale: the
written-back row keeps only the id of the prior row, while name,
visibility, all five timestamps and both rosters come from the submitted
form alone; in particular an empty submitted users field leaves the
row with an empty user set, so prior roster entries never survive and
nothing is merged. -/
theorem update_replaces_wholesale (sdt : Option String → Option String → Option Int)
    (form : ContestForm) (store : Store) (cid : Nat) (name : String) (b : Bool)
    (us ps : String) (contest : Contest)
    (hc : form.contest_id = some cid)
    (hn : form.name = some name)
    (hb : checkbox_result_to_bool form.is_public = some b)
    (hu : form.users = some us)
    (hp : form.problems = some ps)
    (hf : store.contests.find? (fun c => c.id = cid) = some contest) :
    ∃ contest2 : Contest,
      add_contest sdt form store =
        (.ok, { store with
                  contests := store.contests.map
                    (fun c => if c.id = cid then contest2 else c) }) ∧
      contest2.id = contest.id ∧
      contest2.name = name ∧
      contest2.is_public = b ∧
      contest2.activate_time = sdt form.activate_date form.activate_time ∧
      contest2.start_time = sdt form.start_date form.start_time ∧
      contest2.freeze_time = sdt form.freeze_date form.freeze_time ∧
      contest2.end_time = sdt form.end_date form.end_time ∧
      contest2.deactivate_time = sdt form.deactivate_date form.deactivate_time ∧
      contest2.users = users_from_emails (pySplit us) store ∧
      contest2.problems = problems_from_slugs (pySplit ps) store ∧
      (us = "" → contest2.users = []) := by
  refine ⟨updatedRow sdt form store contest name b us ps,
    add_contest_edit_eq sdt form store cid name b us ps contest hc hn hb hu hp hf,
    rfl, rfl, rfl, rfl, rfl, rfl, rfl, rfl, rfl, rfl, ?_⟩
  rintro rfl
  rfl

/-- An edit form renaming contest 1 to Winter with empty rosters. -/
def formC8 : ContestForm :=
  { baseForm with name := some "Winter", contest_id := some 1 }

/-- Claim C8 witness: the wholesale-replacement theorem at a concrete
store and form. -/
theorem update_replaces_wholesale_witness :
    formC8.contest_id = some 1 ∧
    formC8.name = some "Winter" ∧
    checkbox_result_to_bool formC8.is_public = some true ∧
    formC8.users = some "" ∧
    formC8.problems = some "" ∧
    storeA.contests.find? (fun c => c.id = 1) = some contestA ∧
    (∃ contest2 : Contest,
      add_contest sdtNone formC8 storeA =
        (.ok, { storeA with
                  contests := storeA.contests.map
                    (fun c => if c.id = 1 then contest2 else c) }) ∧
      contest2.id = contestA.id ∧
      contest2.name = "Winter" ∧
      contest2.is_public = true ∧
      contest2.activate_time = sdtNone formC8.activate_date formC8.activate_time ∧
      contest2.start_time = sdtNone formC8.start_date formC8.start_time ∧
      contest2.freeze_time = sdtNone formC8.freeze_date formC8.freeze_time ∧
      contest2.end_time = sdtNone formC8.end_date formC8.end_time ∧
      contest2.deactivate_time = sdtNone formC8.deactivate_date formC8.deactivate_time ∧
      contest2.users = users_from_emails (pySplit "") storeA ∧
      contest2.problems = problems_from_slugs (pySplit "") storeA ∧
      ("" = "" → contest2.users = [])) :=
  ⟨rfl, rfl, rfl, rfl, rfl, by decide,
   update_replaces_wholesale sdtNone formC8 storeA 1 "Winter" true "" "" contestA
     rfl rfl rfl rfl rfl (by decide)⟩

/-- Claim C10: a Create or Update request whose users or problems form
field is entirely absent (None rather than present-but-empty) makes
add_contest raise an unhandled AttributeError from None.split(), instead
of a typed error or an empty-roster default, once control reaches the
roster-splitting lines (create mode past the duplicate check, or edit
mode with the id found). -/
theorem missing_roster_field_raises (sdt : Option String → Option String → Option Int)
    (form : ContestForm) (store : Store) (name : String) (b : Bool)
    (hn : form.name = some name)
    (hb : checkbox_result_to_bool form.is_public = some b)
    (hmiss : form.users = none ∨ form.problems = none)
    (hpath : (form.contest_id = none ∧ is_dup_contest_name name store = false) ∨
             (∃ cid contest, form.contest_id = some cid ∧
                 store.contests.find? (fun c => c.id = cid) = some contest)) :
    add_contest sdt form store = (.exn .attributeError, store) := by
  rcases hpath with ⟨hc, hd⟩ | ⟨cid, contest, hc, hf⟩
  · rcases hmiss with hu | hp2
    · simp [add_contest, hn, hb, hc, hd, hu]
    · cases hu : form.users with
      | none => simp [add_contest, hn, hb, hc, hd, hu]
      | some us => simp [add_contest, hn, hb, hc, hd, hu, hp2]
  · rcases hmiss with hu | hp2
    · simp [add_contest, hn, hb, hc, hf, hu]
    · cases hu : form.users with
      | none => simp [add_contest, hn, hb, hc, hf, hu]
      | some us => simp [add_contest, hn, hb, hc, hf, hu, hp2]

/-- A create form with the users field entirely absent. -/
def formC10 : ContestForm :=
  { baseForm with users := none }

/-- Claim C10 witness: the AttributeError theorem at a concrete create
request missing its users field. -/
theorem missing_roster_field_raises_witness :
    formC10.name = some "New" ∧
    checkbox_result_to_bool formC10.is_public = some true ∧
    (formC10.users = none ∨ formC10.problems = none) ∧
    ((formC10.contest_id = none ∧ is_dup_contest_name "New" emptyStore = false) ∨
     (∃ cid contest, formC10.contest_id = some cid ∧
         emptyStore.contests.find? (fun c => c.id = cid) = some contest)) ∧
    add_contest sdtNone formC10 emptyStore = (.exn .attributeError, emptyStore) :=
  ⟨rfl, rfl, Or.inl rfl, Or.inl ⟨rfl, by decide⟩,
   missing_roster_field_raises sdtNone formC10 emptyStore "New" true rfl rfl
     (Or.inl rfl) (Or.inl ⟨rfl, by decide⟩)⟩
